import Mathlib

/-!
Verification of the flashcard subsystem of the SkyLearn backend
(`src/main.py`): the spaced-repetition scheduler, flashcard generation,
due-card listing and review submission.

Timestamps are modelled as integers counting seconds; `timedelta(days=d)`
becomes `d * 86400`.  MongoDB's `find`/`find_one`/`update_one` over the
`flashcard` collection are modelled over a list of documents in natural
(insertion) order.  Each call of `datetime.now(timezone.utc)` in the
Python source becomes one explicit clock-reading parameter; in
particular `review_flashcard` reads the wall clock twice (once for the
next-due computation, once for `updated_at`), so its model takes two
readings `t1` and `t2`.
-/

namespace SkyLearn

/-- Seconds in one day; `timedelta(days=d)` is `d * secondsPerDay`. -/
def secondsPerDay : Int := 86400

/-- `timedelta(days=d)` for an integer number of days. -/
def days (d : Int) : Int := d * secondsPerDay

/-- An HTTP error as raised by `HTTPException(status, detail)`. -/
structure HttpError where
  status : Nat
  detail : String
deriving DecidableEq, Repr

/-- A document of the `flashcard` collection, as built by
`generate_flashcards` (src/main.py lines 332-339) and mutated by
`review_flashcard` (line 364).  `updated_at` is absent until the first
review sets it. -/
structure Flashcard where
  _id : String
  user_id : String
  front : String
  back : String
  blooms_level : String
  due_at : Int
  created_at : Int
  updated_at : Option Int
deriving DecidableEq, Repr

/-- A document of the `chapter` collection; `generate_flashcards` only
reads its `title`. -/
structure Chapter where
  _id : String
  title : String
deriving DecidableEq, Repr

/-- Is `c` a hexadecimal digit?  (`bson.ObjectId` accepts both cases.) -/
def isHexChar (c : Char) : Bool :=
  c.isDigit || (Char.ofNat 97 ≤ c && c ≤ Char.ofNat 102) ||
    (Char.ofNat 65 ≤ c && c ≤ Char.ofNat 70)

/-- Lower-case every character of a string. -/
def lowerString (s : String) : String :=
  ⟨s.data.map Char.toLower⟩

/-- `ObjectId(s)` on a string argument: succeeds exactly on 24-character
hexadecimal strings and compares case-insensitively, modelled by
normalising to lower case; raises (here: `none`) otherwise. -/
def objectIdOfString (s : String) : Option String :=
  if s.length == 24 && s.toList.all isHexChar then some (lowerString s)
  else none

/-- `(chap.get("title") or "Chapter")`: Python's `or` replaces a falsy
(empty) string by the default. -/
def pyOr (s dflt : String) : String :=
  if s == "" then dflt else s

/-- Split a character list at every single space character, keeping
empty pieces; `acc` holds the characters of the current piece in
reverse.  The result is never empty. -/
def splitSpaceAux : List Char → List Char → List String
  | [], acc => [String.mk acc.reverse]
  | c :: cs, acc =>
    if c = ' ' then String.mk acc.reverse :: splitSpaceAux cs []
    else splitSpaceAux cs (c :: acc)

/-- Python `s.split(" ")`: split at every single space character,
keeping empty pieces; the result is never empty. -/
def pySplitSpace (s : String) : List String :=
  splitSpaceAux s.data []

/-- The naming stem of `generate_flashcards` (line 328):
`(chap.get("title") or "Chapter").split(" ")[0]`. -/
def stemOfTitle (title : String) : String :=
  (pySplitSpace (pyOr title "Chapter")).headD ""

/-- The scheduler inlined at src/main.py lines 362-363:
`days = max(1, min(7, grade)); next_due = now + timedelta(days=days)`. -/
def nextDueAt (grade : Int) (now : Int) : Int :=
  now + days (max 1 (min 7 grade))

/-- `GET /api/chapters/{chapter_id}` (src/main.py lines 198-207), reduced
to the fields the flashcard code consumes: parse the id (404 `Invalid
chapter id` on failure), then `find_one` (404 `Chapter not found`). -/
def get_chapter (chapter_id : String) (chapters : List Chapter) :
    Except HttpError Chapter :=
  match objectIdOfString chapter_id with
  | none => .error ⟨404, "Invalid chapter id"⟩
  | some oid =>
    match chapters.find? (fun c => c._id == oid) with
    | none => .error ⟨404, "Chapter not found"⟩
    | some c => .ok c

/-- One document built in the loop body of `generate_flashcards`
(src/main.py lines 332-339); `i` is the 0-based loop index and `oid` the
identifier assigned at insertion. -/
def mkCard (uid stem : String) (now : Int) (oid : String) (i : Nat) :
    Flashcard :=
  { _id := oid
    user_id := uid
    front := s!"What is {stem} concept {i+1}?"
    back := s!"Explanation for {stem} concept {i+1}."
    blooms_level := "remember"
    due_at := now + days ((i : Int) % 3 + 1)
    created_at := now
    updated_at := none }

/-- `POST /api/flashcards/generate` (src/main.py lines 324-345).  `fresh`
supplies the `_id` the store assigns to the i-th inserted document.
Returns the response items together with the updated collection. -/
def generate_flashcards (chapter_id : String) (count : Int) (uid : String)
    (now : Int) (fresh : Nat → String) (chapters : List Chapter)
    (store : List Flashcard) :
    Except HttpError (List Flashcard × List Flashcard) :=
  match get_chapter chapter_id chapters with
  | .error e => .error e
  | .ok chap =>
    let stem := stemOfTitle chap.title
    let n := (max 1 (min count 20)).toNat
    let docs := (List.range n).map (fun i => mkCard uid stem now (fresh i) i)
    .ok (docs, store ++ docs)

/-- `GET /api/flashcards` (src/main.py lines 307-316): filter by owner,
optionally by `due_at <= now`, capped at 100 documents. -/
def list_flashcards (uid : String) (due : Bool) (now : Int)
    (store : List Flashcard) : List Flashcard :=
  (store.filter
    (fun c => c.user_id == uid && (!due || decide (c.due_at ≤ now)))).take 100

/-- `update_one({"_id": oid}, {"$set": {"due_at": d, "updated_at": t}})`:
rewrite the first document whose `_id` matches, leave the rest alone. -/
def updateOne (store : List Flashcard) (oid : String) (d t : Int) :
    List Flashcard :=
  match store with
  | [] => []
  | c :: cs =>
    if c._id == oid then { c with due_at := d, updated_at := some t } :: cs
    else c :: updateOne cs oid d t

/-- `PUT /api/flashcards/{fid}/review` (src/main.py lines 352-365).
`t1` is the clock reading of line 363 (used by the scheduler) and `t2`
the separate reading of line 364 (stored as `updated_at`).  Returns the
`next_due_at` response value together with the updated collection. -/
def review_flashcard (fid : String) (grade : Int) (uid : String)
    (t1 t2 : Int) (store : List Flashcard) :
    Except HttpError (Int × List Flashcard) :=
  match objectIdOfString fid with
  | none => .error ⟨404, "Invalid flashcard id"⟩
  | some oid =>
    match store.find? (fun c => c._id == oid && c.user_id == uid) with
    | none => .error ⟨404, "Flashcard not found"⟩
    | some _ =>
      let next_due := nextDueAt grade t1
      .ok (next_due, updateOne store oid next_due t2)

/-- The spec's `clamp(g, lo, hi)`. -/
def specClamp (g lo hi : Int) : Int := max lo (min g hi)

/-- Modelled from the spec (§4.2): the "first whitespace-delimited token"
of the chapter title — skip leading whitespace, then take the maximal
run of non-whitespace characters. -/
def specFirstWhitespaceToken (title : String) : String :=
  String.mk ((title.data.dropWhile Char.isWhitespace).takeWhile
    (fun c => !c.isWhitespace))

end SkyLearn

namespace SkyLearn

/-! ### Helper lemmas -/

theorem updateOne_length (oid : String) (d t : Int) (store : List Flashcard) :
    (updateOne store oid d t).length = store.length := by
  induction store with
  | nil => rfl
  | cons c cs ih => cases hc : c._id == oid <;> simp [updateOne, hc, ih]

theorem updateOne_getElem (oid : String) (d t : Int) :
    ∀ (store : List Flashcard) (i : Nat) (h : i < store.length)
      (h2 : i < (updateOne store oid d t).length),
      (updateOne store oid d t)[i] = store[i] ∨
      (updateOne store oid d t)[i] =
        { store[i] with due_at := d, updated_at := some t } := by
  intro store
  induction store with
  | nil => intro i h h2; exact absurd h (by simp)
  | cons c cs ih =>
    intro i h h2
    cases hc : c._id == oid
    · cases i with
      | zero => left; simp [updateOne, hc]
      | succ j =>
        have h' : j < cs.length := by simpa using h
        have h2' : j < (updateOne cs oid d t).length := by
          simpa [updateOne, hc] using h2
        rcases ih j h' h2' with hcase | hcase
        · left; simpa [updateOne, hc] using hcase
        · right; simpa [updateOne, hc] using hcase
    · cases i with
      | zero => right; simp [updateOne, hc]
      | succ j =>
        left
        simp [updateOne, hc]

theorem updateOne_getElem_ne (oid : String) (d t : Int) :
    ∀ (store : List Flashcard) (i : Nat) (h : i < store.length)
      (h2 : i < (updateOne store oid d t).length),
      store[i]._id ≠ oid →
      (updateOne store oid d t)[i] = store[i] := by
  intro store
  induction store with
  | nil => intro i h h2 hne; exact absurd h (by simp)
  | cons c cs ih =>
    intro i h h2 hne
    cases hc : c._id == oid
    · cases i with
      | zero => simp [updateOne, hc]
      | succ j =>
        have h' : j < cs.length := by simpa using h
        have h2' : j < (updateOne cs oid d t).length := by
          simpa [updateOne, hc] using h2
        have := ih j h' h2' (by simpa using hne)
        simpa [updateOne, hc] using this
    · cases i with
      | zero =>
        exact absurd (by simpa using hc) (by simpa using hne)
      | succ j => simp [updateOne, hc]

theorem updateOne_mem (oid : String) (d t : Int) :
    ∀ (store : List Flashcard), ∀ x ∈ updateOne store oid d t,
      x ∈ store ∨ (x.due_at = d ∧ x.updated_at = some t) := by
  intro store
  induction store with
  | nil => intro x hx; exact absurd hx (by simp [updateOne])
  | cons c cs ih =>
    intro x hx
    cases hc : c._id == oid
    · rw [updateOne] at hx
      simp only [hc] at hx
      rcases List.mem_cons.mp (by simpa using hx) with hx | hx
      · left; simp [hx]
      · rcases ih x hx with h | h
        · left; exact List.mem_cons_of_mem _ h
        · right; exact h
    · rw [updateOne] at hx
      simp only [hc] at hx
      rcases List.mem_cons.mp (by simpa using hx) with hx | hx
      · right; simp [hx]
      · left; exact List.mem_cons_of_mem _ hx

theorem review_ok_eq (fid : String) (grade : Int) (uid : String)
    (t1 t2 : Int) (store : List Flashcard) (oid : String)
    (d : Int) (store' : List Flashcard)
    (hparse : objectIdOfString fid = some oid)
    (hrun : review_flashcard fid grade uid t1 t2 store = .ok (d, store')) :
    d = nextDueAt grade t1 ∧
    store' = updateOne store oid (nextDueAt grade t1) t2 := by
  rw [review_flashcard] at hrun
  split at hrun
  · exact absurd hrun (by simp)
  · rename_i x hx
    rw [hparse] at hx
    cases hx
    split at hrun
    · exact absurd hrun (by simp)
    · simp only [Except.ok.injEq, Prod.mk.injEq] at hrun
      exact ⟨hrun.1.symm, hrun.2.symm⟩

theorem generate_ok_eq (chapter_id : String) (count : Int) (uid : String)
    (now : Int) (fresh : Nat → String) (chapters : List Chapter)
    (store : List Flashcard) (docs store' : List Flashcard)
    (hrun : generate_flashcards chapter_id count uid now fresh chapters store =
      .ok (docs, store')) :
    ∃ chap, get_chapter chapter_id chapters = .ok chap ∧
      docs = (List.range (max 1 (min count 20)).toNat).map
        (fun i => mkCard uid (stemOfTitle chap.title) now (fresh i) i) ∧
      store' = store ++ docs := by
  rw [generate_flashcards] at hrun
  split at hrun
  · exact absurd hrun (by simp)
  · rename_i chap hch
    simp only [Except.ok.injEq, Prod.mk.injEq] at hrun
    refine ⟨chap, hch, hrun.1.symm, ?_⟩
    rw [← hrun.2, hrun.1]

theorem days_le_days {a b : Int} (h : a ≤ b) : days a ≤ days b := by
  unfold days secondsPerDay
  exact mul_le_mul_of_nonneg_right h (by norm_num)

end SkyLearn

namespace SkyLearn

/-! ### Concrete fixtures for witnesses and counterexamples -/

/-- A well-formed `ObjectId` string. -/
def oidA : String := "0123456789abcdef01234567"

/-- A second, distinct well-formed `ObjectId` string. -/
def oidB : String := "aaaaaaaaaaaaaaaaaaaaaaaa"

/-- A flashcard owned by user `u1`, due at time 5. -/
def cardA : Flashcard :=
  { _id := oidA, user_id := "u1", front := "f", back := "b",
    blooms_level := "remember", due_at := 5, created_at := 0,
    updated_at := none }

/-- `cardA` after a grade-3 review modelled with clock readings 0 and 1. -/
def cardA1 : Flashcard :=
  { cardA with due_at := 259200, updated_at := some 1 }

/-! ### Claims -/

/-- C1: a successful review computes the next due timestamp as
`now + clamp(grade, 1, 7)` days; grade 0 behaves like grade 1 and grade
99 like grade 7; the scheduler is a total function of the integer
grade. -/
theorem C1_nextDueAt_clamps (g now : Int) :
    nextDueAt g now = now + days (specClamp g 1 7) ∧
    nextDueAt 0 now = nextDueAt 1 now ∧
    nextDueAt 99 now = nextDueAt 7 now := by
  refine ⟨?_, ?_, ?_⟩
  · rw [nextDueAt, specClamp, min_comm]
  · have h : days (max 1 (min 7 (0 : Int))) = days (max 1 (min 7 (1 : Int))) := by
      decide
    rw [nextDueAt, nextDueAt, h]
  · have h : days (max 1 (min 7 (99 : Int))) = days (max 1 (min 7 (7 : Int))) := by
      decide
    rw [nextDueAt, nextDueAt, h]

/-- C2: when no card with the requested id is owned by the caller —
whether the id belongs to nobody or to a different user — review fails
with the one fixed 404 `Flashcard not found` error, so the two cases
are indistinguishable to the caller. -/
theorem C2_review_notFound (fid uid : String) (grade t1 t2 : Int)
    (store : List Flashcard) (oid : String)
    (hparse : objectIdOfString fid = some oid)
    (hnone : ∀ c ∈ store, ¬(c._id = oid ∧ c.user_id = uid)) :
    review_flashcard fid grade uid t1 t2 store =
      .error ⟨404, "Flashcard not found"⟩ := by
  have hfind : store.find? (fun c => c._id == oid && c.user_id == uid) = none := by
    rw [List.find?_eq_none]
    intro c hc
    have hna := hnone c hc
    simp only [Bool.and_eq_true, beq_iff_eq]
    tauto
  simp [review_flashcard, hparse, hfind]

theorem C2_witness :
    objectIdOfString oidA = some oidA ∧
    (∀ c ∈ [cardA], ¬(c._id = oidA ∧ c.user_id = "u2")) ∧
    review_flashcard oidA 3 "u2" 0 0 [cardA] =
      .error ⟨404, "Flashcard not found"⟩ :=
  ⟨by decide, by decide,
    C2_review_notFound oidA "u2" 3 0 0 [cardA] oidA (by decide) (by decide)⟩

end SkyLearn

namespace SkyLearn

/-- C3 counterexample: reviewing `cardA` with grade 3 when the two
wall-clock reads of `review_flashcard` return 0 (line 363, used by the
scheduler) and then 1 (line 364, stored as `updated_at`) persists
`updated_at = 1`, not the scheduler's `now = 0`, and the stored
`due_at` differs from `updated_at + clamp(3, 1, 7)` days. -/
theorem C3_counterexample :
    review_flashcard oidA 3 "u1" 0 1 [cardA] = .ok (259200, [cardA1]) ∧
    cardA1.updated_at ≠ some 0 ∧
    cardA1.due_at ≠ 1 + days (specClamp 3 1 7) := by
  refine ⟨?_, by decide, by decide⟩
  rfl

/-- C3 (amended): on a successful review the returned and persisted
`due_at` is `nextDueAt grade t1` where `t1` is the first wall-clock
reading, while `updated_at` is set to the separate second reading `t2`;
only when the two readings coincide does the stored `due_at` equal
`updated_at` plus the clamped number of days. -/
theorem C3_review_persists (fid : String) (grade : Int) (uid : String)
    (t1 t2 : Int) (store : List Flashcard) (oid : String) (d : Int)
    (store' : List Flashcard)
    (hparse : objectIdOfString fid = some oid)
    (hrun : review_flashcard fid grade uid t1 t2 store = .ok (d, store')) :
    d = nextDueAt grade t1 ∧
    (∀ c ∈ store', c ∈ store ∨
      (c.due_at = nextDueAt grade t1 ∧ c.updated_at = some t2)) ∧
    (t2 = t1 → ∀ c ∈ store', c ∈ store ∨
      (∃ u, c.updated_at = some u ∧
        c.due_at = u + days (specClamp grade 1 7))) := by
  obtain ⟨hd, hs⟩ := review_ok_eq fid grade uid t1 t2 store oid d store' hparse hrun
  subst hs
  refine ⟨hd, ?_, ?_⟩
  · intro c hc
    exact updateOne_mem oid (nextDueAt grade t1) t2 store c hc
  · intro ht c hc
    rcases updateOne_mem oid (nextDueAt grade t1) t2 store c hc with h | ⟨hdue, hupd⟩
    · exact Or.inl h
    · refine Or.inr ⟨t2, hupd, ?_⟩
      rw [hdue, ht, nextDueAt, specClamp, min_comm]

theorem C3_witness :
    (259200 : Int) = nextDueAt 3 0 :=
  (C3_review_persists oidA 3 "u1" 0 0 [cardA] oidA 259200
    [{ cardA with due_at := 259200, updated_at := some 0 }]
    (by decide) (by rfl)).1

end SkyLearn

namespace SkyLearn

/-- A chapter fixture whose title has two space-separated words. -/
def chapX : Chapter := { _id := oidB, title := "Quantum Mechanics" }

/-- The batch generated for `chapX` at time 0 with requested count 5. -/
def docsC : List Flashcard :=
  (List.range 5).map (fun i => mkCard "u1" "Quantum" 0 "newid" i)

/-- The batch generated for `chapX` at time 0 with requested count -5. -/
def docsN : List Flashcard := [mkCard "u1" "Quantum" 0 "newid" 0]

/-- C4: the i-th card (0-indexed) of a generated batch is due at
`now + ((i mod 3) + 1)` days; hence indices 0 and 3 of a batch of at
least 4 share a due time, and a batch requested with count 5 is due at
`now+1d, now+2d, now+3d, now+1d, now+2d`. -/
theorem C4_generate_stagger (chapter_id : String) (count : Int)
    (uid : String) (now : Int) (fresh : Nat → String)
    (chapters : List Chapter) (store docs store' : List Flashcard)
    (hrun : generate_flashcards chapter_id count uid now fresh chapters
      store = .ok (docs, store')) :
    (∀ i (h : i < docs.length),
      docs[i].due_at = now + days ((i : Int) % 3 + 1)) ∧
    (∀ (h0 : 0 < docs.length) (h3 : 3 < docs.length),
      docs[0].due_at = docs[3].due_at) ∧
    (count = 5 → docs.map (fun c => c.due_at) =
      [now + days 1, now + days 2, now + days 3,
        now + days 1, now + days 2]) := by
  obtain ⟨chap, hch, hdocs, hst⟩ :=
    generate_ok_eq chapter_id count uid now fresh chapters store docs
      store' hrun
  subst hdocs
  refine ⟨?_, ?_, ?_⟩
  · intro i h
    simp only [List.length_map, List.length_range] at h
    simp [List.getElem_map, List.getElem_range, mkCard, h]
  · intro h0 h3
    simp only [List.length_map, List.length_range] at h0 h3
    simp [List.getElem_map, List.getElem_range, mkCard, h0, h3]
  · intro hc
    subst hc
    rfl

/-- C5: generation for an existing chapter produces, persists and
returns exactly `clamp(count, 1, 20)` cards, so between 1 and 20 of
them, whatever integer count was requested. -/
theorem C5_generate_count (chapter_id : String) (count : Int)
    (uid : String) (now : Int) (fresh : Nat → String)
    (chapters : List Chapter) (store docs store' : List Flashcard)
    (hrun : generate_flashcards chapter_id count uid now fresh chapters
      store = .ok (docs, store')) :
    docs.length = (specClamp count 1 20).toNat ∧
    1 ≤ docs.length ∧ docs.length ≤ 20 ∧
    store' = store ++ docs := by
  obtain ⟨chap, hch, hdocs, hst⟩ :=
    generate_ok_eq chapter_id count uid now fresh chapters store docs
      store' hrun
  subst hdocs
  refine ⟨?_, ?_, ?_, hst⟩
  · simp [specClamp]
  · simp only [List.length_map, List.length_range]
    omega
  · simp only [List.length_map, List.length_range]
    omega

theorem C4_witness :
    docsC.map (fun c => c.due_at) =
      [0 + days 1, 0 + days 2, 0 + days 3, 0 + days 1, 0 + days 2] :=
  (C4_generate_stagger oidB 5 "u1" 0 (fun _ => "newid") [chapX] []
    docsC ([] ++ docsC) (by rfl)).2.2 rfl

theorem C5_witness :
    docsN.length = (specClamp (-5) 1 20).toNat ∧
    1 ≤ docsN.length ∧ docsN.length ≤ 20 ∧
    docsN = [] ++ docsN :=
  C5_generate_count oidB (-5) "u1" 0 (fun _ => "newid") [chapX] []
    docsN docsN (by rfl)

end SkyLearn

namespace SkyLearn

/-- C6: the flashcard listing returns only cards owned by the
requesting user, returns at most 100 items, and with `due=true` only
cards whose `due_at` is at or before the single clock reading `now`. -/
theorem C6_list_flashcards (uid : String) (due : Bool) (now : Int)
    (store : List Flashcard) :
    (∀ c ∈ list_flashcards uid due now store, c.user_id = uid) ∧
    (list_flashcards uid due now store).length ≤ 100 ∧
    (due = true → ∀ c ∈ list_flashcards uid due now store,
      c.due_at ≤ now) := by
  refine ⟨?_, ?_, ?_⟩
  · intro c hc
    rw [list_flashcards] at hc
    have hp := (List.mem_filter.mp (List.take_subset _ _ hc)).2
    simp only [Bool.and_eq_true, beq_iff_eq] at hp
    exact hp.1
  · rw [list_flashcards, List.length_take]
    exact min_le_left _ _
  · intro hdue c hc
    subst hdue
    rw [list_flashcards] at hc
    have hp := (List.mem_filter.mp (List.take_subset _ _ hc)).2
    simp only [Bool.not_true, Bool.false_or, Bool.and_eq_true,
      beq_iff_eq, decide_eq_true_eq] at hp
    exact hp.2

theorem C6_witness :
    cardA.user_id = "u1" ∧ cardA.due_at ≤ 10 :=
  ⟨(C6_list_flashcards "u1" true 10 [cardA]).1 cardA (by decide),
   (C6_list_flashcards "u1" true 10 [cardA]).2.2 rfl cardA (by decide)⟩

/-- C7: generation stamps every new card with `created_at = now` and a
`due_at` at least one day after `now`, touching no pre-existing card;
review returns and persists a `due_at` at least one day after the
clock reading `t1` it was computed from, every other card in the store
being left as it was. -/
theorem C7_due_at_invariant (chapter_id : String) (count : Int)
    (uid : String) (now : Int) (fresh : Nat → String)
    (chapters : List Chapter) (storeG docs storeG' : List Flashcard)
    (fid : String) (grade : Int) (uid2 : String) (t1 t2 : Int)
    (storeR : List Flashcard) (oid : String) (d : Int)
    (storeR' : List Flashcard)
    (hgen : generate_flashcards chapter_id count uid now fresh chapters
      storeG = .ok (docs, storeG'))
    (hparse : objectIdOfString fid = some oid)
    (hrev : review_flashcard fid grade uid2 t1 t2 storeR =
      .ok (d, storeR')) :
    (∀ c ∈ docs, c.created_at = now ∧ now + days 1 ≤ c.due_at) ∧
    (∀ c ∈ storeG', c ∈ storeG ∨ c ∈ docs) ∧
    t1 + days 1 ≤ d ∧
    (∀ c ∈ storeR', c ∈ storeR ∨ c.due_at = d) := by
  obtain ⟨chap, hch, hdocs, hst⟩ :=
    generate_ok_eq chapter_id count uid now fresh chapters storeG docs
      storeG' hgen
  obtain ⟨hd, hs⟩ :=
    review_ok_eq fid grade uid2 t1 t2 storeR oid d storeR' hparse hrev
  subst hdocs hst hd hs
  refine ⟨?_, ?_, ?_, ?_⟩
  · intro c hc
    obtain ⟨i, hi, hci⟩ := List.mem_map.mp hc
    subst hci
    refine ⟨rfl, ?_⟩
    have h1 : (1 : Int) ≤ (i : Int) % 3 + 1 := by omega
    exact add_le_add_left (days_le_days h1) now
  · intro c hc
    exact List.mem_append.mp hc
  · have h1 : (1 : Int) ≤ max 1 (min 7 grade) := le_max_left _ _
    exact add_le_add_left (days_le_days h1) t1
  · intro c hc
    rcases updateOne_mem oid (nextDueAt grade t1) t2 storeR c hc with
      h | ⟨hdue, hupd⟩
    · exact Or.inl h
    · exact Or.inr hdue

theorem C7_witness : (0 : Int) + days 1 ≤ 259200 :=
  (C7_due_at_invariant oidB 1 "u1" 0 (fun _ => "newid") [chapX] []
    docsN docsN oidA 3 "u1" 0 0 [cardA] oidA 259200
    [{ cardA with due_at := 259200, updated_at := some 0 }]
    (by rfl) (by decide) (by rfl)).2.2.1

end SkyLearn

namespace SkyLearn

/-- A chapter fixture whose title contains a tab, not a space, between
its first two words. -/
def chapTab : Chapter := { _id := oidB, title := "A\tB" }

/-- C8 counterexample: for a chapter titled `"A\tB"` the code's stem is
the whole title (Python `split(" ")` only splits on the space
character), while the first whitespace-delimited token is `"A"`, so the
generated front text differs from the one the claim derives. -/
theorem C8_counterexample :
    generate_flashcards oidB 1 "u1" 0 (fun _ => "newid") [chapTab] [] =
      .ok ([mkCard "u1" "A\tB" 0 "newid" 0],
        [mkCard "u1" "A\tB" 0 "newid" 0]) ∧
    (mkCard "u1" "A\tB" 0 "newid" 0).front = "What is A\tB concept 1?" ∧
    specFirstWhitespaceToken chapTab.title = "A" ∧
    "What is A\tB concept 1?" ≠ "What is A concept 1?" :=
  ⟨rfl, rfl, rfl, by decide⟩

/-- C8 (amended): each generated card's front and back are derived
deterministically from the stem `stemOfTitle` — the chapter title's
prefix before the first space character (single-space splitting, empty
title replaced by "Chapter") — and the 1-based batch index, and every
generated card has `blooms_level = "remember"`. -/
theorem C8_generate_content (chapter_id : String) (count : Int)
    (uid : String) (now : Int) (fresh : Nat → String)
    (chapters : List Chapter) (store docs store' : List Flashcard)
    (chap : Chapter)
    (hch : get_chapter chapter_id chapters = .ok chap)
    (hrun : generate_flashcards chapter_id count uid now fresh chapters
      store = .ok (docs, store')) :
    ∀ i (h : i < docs.length),
      docs[i].front =
        "What is " ++ stemOfTitle chap.title ++ " concept " ++
          toString (i + 1) ++ "?" ∧
      docs[i].back =
        "Explanation for " ++ stemOfTitle chap.title ++ " concept " ++
          toString (i + 1) ++ "." ∧
      docs[i].blooms_level = "remember" := by
  obtain ⟨chap2, hch2, hdocs, hst⟩ :=
    generate_ok_eq chapter_id count uid now fresh chapters store docs
      store' hrun
  rw [hch] at hch2
  have hc2 : chap = chap2 := by
    simpa using hch2
  subst hc2 hdocs
  intro i h
  simp only [List.length_map, List.length_range] at h
  simp only [List.getElem_map, List.getElem_range]
  exact ⟨rfl, rfl, rfl⟩

theorem C8_witness :
    (docsN.get ⟨0, by decide⟩).front =
      "What is " ++ stemOfTitle chapX.title ++ " concept " ++
        toString (0 + 1) ++ "?" :=
  ((C8_generate_content oidB 1 "u1" 0 (fun _ => "newid") [chapX] []
    docsN docsN chapX (by rfl) (by rfl)) 0 (by decide)).1

/-- C9 counterexample: a malformed id and a well-formed id of a
nonexistent card both yield HTTP 404, but with different bodies —
`Invalid flashcard id` versus `Flashcard not found` — so the caller can
tell the two cases apart; they are not one and the same error. -/
theorem C9_counterexample :
    review_flashcard "zzz" 3 "u1" 0 0 [] =
      .error ⟨404, "Invalid flashcard id"⟩ ∧
    review_flashcard oidA 3 "u1" 0 0 [] =
      .error ⟨404, "Flashcard not found"⟩ ∧
    (⟨404, "Invalid flashcard id"⟩ : HttpError) ≠
      ⟨404, "Flashcard not found"⟩ :=
  ⟨rfl, rfl, by decide⟩

/-- C9 (amended): a malformed id and a well-formed id matching no owned
card both make review fail with status 404, but with distinct detail
strings (`Invalid flashcard id` vs `Flashcard not found`), so the two
outcomes share the status code yet remain distinguishable. -/
theorem C9_malformed_vs_missing (fid fid2 uid : String) (grade : Int)
    (t1 t2 : Int) (store : List Flashcard) (oid : String)
    (hmal : objectIdOfString fid = none)
    (hparse : objectIdOfString fid2 = some oid)
    (hnone : store.find? (fun c => c._id == oid && c.user_id == uid) =
      none) :
    review_flashcard fid grade uid t1 t2 store =
      .error ⟨404, "Invalid flashcard id"⟩ ∧
    review_flashcard fid2 grade uid t1 t2 store =
      .error ⟨404, "Flashcard not found"⟩ ∧
    "Invalid flashcard id" ≠ "Flashcard not found" := by
  refine ⟨?_, ?_, by decide⟩
  · simp [review_flashcard, hmal]
  · simp [review_flashcard, hparse, hnone]

theorem C9_witness :
    review_flashcard "zzz" 3 "u9" 0 0 [] =
      .error ⟨404, "Invalid flashcard id"⟩ :=
  (C9_malformed_vs_missing "zzz" oidA "u9" 3 0 0 [] oidA (by decide)
    (by decide) (by decide)).1

/-- C10: a successful review only rewrites the reviewed card's `due_at`
and `updated_at`: every stored card keeps its `_id`, `user_id`,
`front`, `back`, `blooms_level` and `created_at`, and every card whose
`_id` is not the reviewed one is completely unchanged. -/
theorem C10_review_frame (fid : String) (grade : Int) (uid : String)
    (t1 t2 : Int) (store : List Flashcard) (oid : String) (d : Int)
    (store' : List Flashcard)
    (hparse : objectIdOfString fid = some oid)
    (hrun : review_flashcard fid grade uid t1 t2 store = .ok (d, store')) :
    store'.length = store.length ∧
    (∀ i (h : i < store.length) (h2 : i < store'.length),
      store'[i]._id = store[i]._id ∧
      store'[i].user_id = store[i].user_id ∧
      store'[i].front = store[i].front ∧
      store'[i].back = store[i].back ∧
      store'[i].blooms_level = store[i].blooms_level ∧
      store'[i].created_at = store[i].created_at) ∧
    (∀ i (h : i < store.length) (h2 : i < store'.length),
      store[i]._id ≠ oid → store'[i] = store[i]) := by
  obtain ⟨hd, hs⟩ :=
    review_ok_eq fid grade uid t1 t2 store oid d store' hparse hrun
  subst hs
  refine ⟨updateOne_length oid _ t2 store, ?_, ?_⟩
  · intro i h h2
    rcases updateOne_getElem oid (nextDueAt grade t1) t2 store i h h2 with
      heq | heq
    · rw [heq]
      exact ⟨rfl, rfl, rfl, rfl, rfl, rfl⟩
    · rw [heq]
      exact ⟨rfl, rfl, rfl, rfl, rfl, rfl⟩
  · intro i h h2 hne
    exact updateOne_getElem_ne oid (nextDueAt grade t1) t2 store i h h2 hne

theorem C10_witness :
    ([cardA1] : List Flashcard).length = [cardA].length :=
  (C10_review_frame oidA 3 "u1" 0 1 [cardA] oidA 259200 [cardA1]
    (by decide) (by rfl)).1

end SkyLearn
